import Mathlib

/-!
Shallow embedding of `src/meta_ads_reporter.py` (Meta Ads hourly tracker).

Conventions of the embedding:
* Python floats are modelled by `ℚ` (the script only adds, divides and
  compares; no claim depends on binary-float rounding).
* A JSON field that may be missing, null or unparsable is an `Option ℚ`;
  `none` is the case where the Python `_safe_float` / `_safe_int` falls back
  to its default.
* Spreadsheet cells are modelled by the inductive `Cell`: `Cell.num x` is a
  genuine numeric value, `Cell.rupee x` models the Python f-string
  `"₹{x}"`, `Cell.pct x` models `"{x}%"`, and `Cell.text s` is a plain
  string cell.
* `datetime` values are integers counting seconds (the code only ever
  subtracts them and shifts them by whole hours).
-/

namespace MetaAds

/-- The Meta action type whose count/value feeds the purchase columns. -/
def purchaseTag : String := "offsite_conversion.fb_pixel_purchase"

/-- One entry of the `actions` / `action_values` JSON lists:
an action-type tag and a (possibly missing / unparsable) numeric value. -/
structure ActionRec where
  action_type : String
  value : Option ℚ
deriving DecidableEq, Repr

/-- One raw insight record as returned by the API (the fields the script
reads). -/
structure Item where
  ad_id : String := ""
  ad_name : String := ""
  spend : Option ℚ := none
  impressions : Option ℚ := none
  clicks : Option ℚ := none
  actions : List ActionRec := []
  action_values : List ActionRec := []
deriving DecidableEq, Repr

/-- `MetricsProcessor._safe_float`: missing / unparsable values fall back
to `0.0`. -/
def safeFloat (v : Option ℚ) : ℚ := v.getD 0

/-- `MetricsProcessor._safe_int`: `int(float(v or 0))`, i.e. truncation of
the parsed value toward zero, with missing / unparsable values falling
back to `0`. -/
def safeInt (v : Option ℚ) : ℤ :=
  let q := v.getD 0
  if 0 ≤ q then ⌊q⌋ else ⌈q⌉

/-- The five funnel counters filled by `MetricsProcessor.extract_actions`. -/
structure ActionCounts where
  link_clicks : ℤ := 0
  landing_page_views : ℤ := 0
  add_to_cart : ℤ := 0
  initiate_checkout : ℤ := 0
  purchases : ℤ := 0
deriving DecidableEq, Repr

/-- One iteration of the `for a in actions` loop of
`extract_actions`: the tag chain adds the value into exactly one counter,
unrecognized tags leave the counters unchanged. -/
def stepAction (a : ActionCounts) (act : ActionRec) : ActionCounts :=
  let v := safeInt act.value
  if act.action_type = "link_click" then
    { a with link_clicks := a.link_clicks + v }
  else if act.action_type = "landing_page_view" then
    { a with landing_page_views := a.landing_page_views + v }
  else if act.action_type = "add_to_cart" then
    { a with add_to_cart := a.add_to_cart + v }
  else if act.action_type = "initiate_checkout" then
    { a with initiate_checkout := a.initiate_checkout + v }
  else if act.action_type = purchaseTag then
    { a with purchases := a.purchases + v }
  else a

/-- `MetricsProcessor.extract_actions`. -/
def extract_actions (acts : List ActionRec) : ActionCounts :=
  acts.foldl stepAction {}

/-- `MetricsProcessor.extract_purchase_value`: walks `action_values` and
RETURNS on the first purchase-tagged entry; `0.0` when none matches. -/
def extract_purchase_value : List ActionRec → ℚ
  | [] => 0
  | av :: rest =>
    if av.action_type = purchaseTag then safeFloat av.value
    else extract_purchase_value rest

/-- The running sums of the accumulation loop in
`MetricsProcessor.calculate_metrics` (lines 397-411).  `impressions` and
`clicks` are initialized to `0.0` in Python and hence accumulate as
floats. -/
structure Sums where
  spend : ℚ := 0
  impressions : ℚ := 0
  clicks : ℚ := 0
  link_clicks : ℤ := 0
  landing_page_views : ℤ := 0
  add_to_cart : ℤ := 0
  initiate_checkout : ℤ := 0
  purchases : ℤ := 0
  purchases_value : ℚ := 0
deriving DecidableEq, Repr

/-- One iteration of the `for item in data_items` loop of
`calculate_metrics`. -/
def stepSums (s : Sums) (item : Item) : Sums :=
  let acts := extract_actions item.actions
  { spend := s.spend + safeFloat item.spend
    impressions := s.impressions + (safeInt item.impressions : ℚ)
    clicks := s.clicks + (safeInt item.clicks : ℚ)
    link_clicks := s.link_clicks + acts.link_clicks
    landing_page_views := s.landing_page_views + acts.landing_page_views
    add_to_cart := s.add_to_cart + acts.add_to_cart
    initiate_checkout := s.initiate_checkout + acts.initiate_checkout
    purchases := s.purchases + acts.purchases
    purchases_value := s.purchases_value + extract_purchase_value item.action_values }

/-- The accumulation phase of `calculate_metrics`. -/
def calcSums (items : List Item) : Sums :=
  items.foldl stepSums {}

/-- The dict returned by `MetricsProcessor.calculate_metrics`
(lines 421-439).  Note the dict carries no `Clicks` key. -/
structure Metrics where
  spend : ℚ
  purchases_value : ℚ
  purchases : ℤ
  impressions : ℚ
  link_clicks : ℤ
  landing_page_views : ℤ
  add_to_cart : ℤ
  initiate_checkout : ℤ
  roas : ℚ
  cpc : ℚ
  ctr : ℚ
  cpm : ℚ
  lc_to_lpv : ℚ
  lpv_to_atc : ℚ
  atc_to_ci : ℚ
  ci_to_ordered : ℚ
  cvr : ℚ
deriving DecidableEq, Repr

/-- `MetricsProcessor.calculate_metrics`: accumulate, then compute the
derived ratios with the `if denominator > 0 else 0` guards of
lines 412-420. -/
def calculate_metrics (items : List Item) : Metrics :=
  let s := calcSums items
  { spend := s.spend
    purchases_value := s.purchases_value
    purchases := s.purchases
    impressions := s.impressions
    link_clicks := s.link_clicks
    landing_page_views := s.landing_page_views
    add_to_cart := s.add_to_cart
    initiate_checkout := s.initiate_checkout
    roas := if 0 < s.spend then s.purchases_value / s.spend else 0
    cpc := if 0 < s.clicks then s.spend / s.clicks else 0
    cpm := if 0 < s.impressions then s.spend / s.impressions * 1000 else 0
    ctr := if 0 < s.impressions then s.clicks / s.impressions * 100 else 0
    lc_to_lpv := if 0 < s.link_clicks then
      ((s.landing_page_views : ℚ) / (s.link_clicks : ℚ)) * 100 else 0
    lpv_to_atc := if 0 < s.landing_page_views then
      ((s.add_to_cart : ℚ) / (s.landing_page_views : ℚ)) * 100 else 0
    atc_to_ci := if 0 < s.add_to_cart then
      ((s.initiate_checkout : ℚ) / (s.add_to_cart : ℚ)) * 100 else 0
    ci_to_ordered := if 0 < s.initiate_checkout then
      ((s.purchases : ℚ) / (s.initiate_checkout : ℚ)) * 100 else 0
    cvr := if 0 < s.link_clicks then
      ((s.purchases : ℚ) / (s.link_clicks : ℚ)) * 100 else 0 }

/-! Independent per-field summations, used to state that the accumulation
loop computes ratios of sums. -/

def sumSpend (items : List Item) : ℚ :=
  (items.map (fun i => safeFloat i.spend)).sum

def sumImpressions (items : List Item) : ℚ :=
  (items.map (fun i => (safeInt i.impressions : ℚ))).sum

def sumClicks (items : List Item) : ℚ :=
  (items.map (fun i => (safeInt i.clicks : ℚ))).sum

def sumLinkClicks (items : List Item) : ℤ :=
  (items.map (fun i => (extract_actions i.actions).link_clicks)).sum

def sumLandingPageViews (items : List Item) : ℤ :=
  (items.map (fun i => (extract_actions i.actions).landing_page_views)).sum

def sumAddToCart (items : List Item) : ℤ :=
  (items.map (fun i => (extract_actions i.actions).add_to_cart)).sum

def sumInitiateCheckout (items : List Item) : ℤ :=
  (items.map (fun i => (extract_actions i.actions).initiate_checkout)).sum

def sumPurchases (items : List Item) : ℤ :=
  (items.map (fun i => (extract_actions i.actions).purchases)).sum

def sumPurchasesValue (items : List Item) : ℚ :=
  (items.map (fun i => extract_purchase_value i.action_values)).sum

/-! ## Spreadsheet cells and report construction -/

/-- A spreadsheet cell as the script writes it.  `num x` is a genuine
numeric value; `rupee x` models the Python f-string `"₹{x}"` (a currency
string); `pct x` models `"{x}%"` (a percent string); `text s` is any other
string cell. -/
inductive Cell where
  | num (x : ℚ)
  | rupee (x : ℚ)
  | pct (x : ℚ)
  | text (s : String)
deriving DecidableEq, Repr

/-- Whether a cell is a genuine numeric value. -/
def Cell.isNum : Cell → Bool
  | .num _ => true
  | _ => false

/-- Whether a cell is a locale-formatted numeric string (currency symbol
or percent sign baked in). -/
def Cell.isLocaleFormatted : Cell → Bool
  | .rupee _ => true
  | .pct _ => true
  | _ => false

/-- Python `round(x, 2)`.  (CPython rounds floats half-to-even; at the
rare exact half-cent boundary this model rounds half up — no claim
depends on values at such boundaries.) -/
def round2 (x : ℚ) : ℚ := (round (x * 100) : ℚ) / 100

/-- `MetricsProcessor.create_hourly_report` (lines 442-464): one row of
named cells, in dict order.  The `strftime` renderings of `target_hour`
are abstracted as the two label strings `d` (Date) and `t` (Timestamp). -/
def create_hourly_report (m : Metrics) (d t : String) : List (String × Cell) :=
  [("Date", .text d),
   ("Timestamp", .text t),
   ("Spend", .rupee (round2 m.spend)),
   ("Purchases Value", .rupee (round2 m.purchases_value)),
   ("Purchases", .num (m.purchases : ℚ)),
   ("Impressions", .num m.impressions),
   ("Link Clicks", .num (m.link_clicks : ℚ)),
   ("Landing Page Views", .num (m.landing_page_views : ℚ)),
   ("Add to Cart", .num (m.add_to_cart : ℚ)),
   ("Initiate Checkout", .num (m.initiate_checkout : ℚ)),
   ("ROAS", .num (round2 m.roas)),
   ("CPC", .rupee (round2 m.cpc)),
   ("CTR", .pct (round2 m.ctr)),
   ("LC TO LPV", .pct (round2 m.lc_to_lpv)),
   ("LPV TO ATC", .pct (round2 m.lpv_to_atc)),
   ("ATC TO CI", .pct (round2 m.atc_to_ci)),
   ("CI TO ORDERED", .pct (round2 m.ci_to_ordered)),
   ("CVR", .pct (round2 m.cvr)),
   ("CPM", .rupee (round2 m.cpm))]

/-- One per-ad record as built by the `for item in ad_data` loop of
`create_ad_level_report` (lines 481-496). -/
structure AdRec where
  ad_id : String
  ad_name : String
  spend : ℚ
  impressions : ℤ
  clicks : ℤ
  link_clicks : ℤ
  landing_page_views : ℤ
  add_to_cart : ℤ
  initiate_checkout : ℤ
  purchases : ℤ
  purchases_value : ℚ
deriving DecidableEq, Repr

/-- The record dict built from one raw item (lines 483-495). -/
def toAdRec (item : Item) : AdRec :=
  let acts := extract_actions item.actions
  { ad_id := item.ad_id
    ad_name := item.ad_name
    spend := safeFloat item.spend
    impressions := safeInt item.impressions
    clicks := safeInt item.clicks
    link_clicks := acts.link_clicks
    landing_page_views := acts.landing_page_views
    add_to_cart := acts.add_to_cart
    initiate_checkout := acts.initiate_checkout
    purchases := acts.purchases
    purchases_value := extract_purchase_value item.action_values }

/-- Pointwise sum of the numeric columns of two grouped records
(`groupby(...).sum(numeric_only=True)`). -/
def addAdRec (a b : AdRec) : AdRec :=
  { a with
    spend := a.spend + b.spend
    impressions := a.impressions + b.impressions
    clicks := a.clicks + b.clicks
    link_clicks := a.link_clicks + b.link_clicks
    landing_page_views := a.landing_page_views + b.landing_page_views
    add_to_cart := a.add_to_cart + b.add_to_cart
    initiate_checkout := a.initiate_checkout + b.initiate_checkout
    purchases := a.purchases + b.purchases
    purchases_value := a.purchases_value + b.purchases_value }

/-- The distinct `(ad_id, ad_name)` group keys, in first-occurrence
order.  (pandas `groupby` additionally sorts group keys; every claim in
this development is row-local, so the key order is left abstract.) -/
def groupKeys (recs : List AdRec) : List (String × String) :=
  recs.foldl
    (fun ks r =>
      if (r.ad_id, r.ad_name) ∈ ks then ks else ks ++ [(r.ad_id, r.ad_name)]) []

/-- The summed record of one `(ad_id, ad_name)` group. -/
def sumGroup (recs : List AdRec) (k : String × String) : AdRec :=
  (recs.filter (fun r => (r.ad_id, r.ad_name) = k)).foldl addAdRec
    { ad_id := k.1, ad_name := k.2, spend := 0, impressions := 0, clicks := 0,
      link_clicks := 0, landing_page_views := 0, add_to_cart := 0,
      initiate_checkout := 0, purchases := 0, purchases_value := 0 }

/-- `groupby` on the (ad_id, ad_name) pair followed by `sum(numeric_only=True)`. -/
def groupByAd (recs : List AdRec) : List AdRec :=
  (groupKeys recs).map (sumGroup recs)

/-- A grouped record extended with the nine derived ratio columns added
in lines 501-511 of `create_ad_level_report`.  Note `ctr` here is the
plain fraction `clicks / impressions` (no `* 100`); the factor 100 is
applied only when the output cell is formatted. -/
structure AdFull extends AdRec where
  roas : ℚ
  cpc : ℚ
  cpm : ℚ
  ctr : ℚ
  lc_to_lpv : ℚ
  lpv_to_atc : ℚ
  atc_to_ci : ℚ
  ci_to_ordered : ℚ
  cvr : ℚ
deriving DecidableEq, Repr

/-- The `np.where(denominator > 0, quotient, 0)` ratio columns of
`create_ad_level_report` (lines 501-511). -/
def adRatios (r : AdRec) : AdFull :=
  { r with
    roas := if 0 < r.spend then r.purchases_value / r.spend else 0
    cpc := if 0 < r.clicks then r.spend / (r.clicks : ℚ) else 0
    cpm := if 0 < r.impressions then r.spend / (r.impressions : ℚ) * 1000 else 0
    ctr := if 0 < r.impressions then (r.clicks : ℚ) / (r.impressions : ℚ) else 0
    lc_to_lpv := if 0 < r.link_clicks then
      ((r.landing_page_views : ℚ) / (r.link_clicks : ℚ)) * 100 else 0
    lpv_to_atc := if 0 < r.landing_page_views then
      ((r.add_to_cart : ℚ) / (r.landing_page_views : ℚ)) * 100 else 0
    atc_to_ci := if 0 < r.add_to_cart then
      ((r.initiate_checkout : ℚ) / (r.add_to_cart : ℚ)) * 100 else 0
    ci_to_ordered := if 0 < r.initiate_checkout then
      ((r.purchases : ℚ) / (r.initiate_checkout : ℚ)) * 100 else 0
    cvr := if 0 < r.link_clicks then
      ((r.purchases : ℚ) / (r.link_clicks : ℚ)) * 100 else 0 }

/-- The fixed column list of the ad-level report. -/
def adLevelHeader : List String :=
  ["Date", "Ad ID", "Ad Name", "Spend", "Revenue", "Orders",
   "Impressions", "Clicks", "Link Clicks", "Landing Page Views",
   "Add to Cart", "Initiate Checkout", "ROAS", "CPC", "CTR", "CPM",
   "LC TO LPV", "LPV TO ATC", "ATC TO CI", "CI TO ORDERED", "CVR"]

/-- One output row of `df_final` (lines 515-537): counts as genuine
integers, `Spend`/`Revenue`/`CPC`/`CPM` as rupee strings, `CTR` as
`f"{round(x * 100, 2)}%"` and the funnel columns as percent strings,
`ROAS` as a rounded number. -/
def formatAdRow (today : String) (r : AdFull) : List (String × Cell) :=
  [("Date", .text today),
   ("Ad ID", .text r.ad_id),
   ("Ad Name", .text r.ad_name),
   ("Spend", .rupee (round2 r.spend)),
   ("Revenue", .rupee (round2 r.purchases_value)),
   ("Orders", .num (r.purchases : ℚ)),
   ("Impressions", .num (r.impressions : ℚ)),
   ("Clicks", .num (r.clicks : ℚ)),
   ("Link Clicks", .num (r.link_clicks : ℚ)),
   ("Landing Page Views", .num (r.landing_page_views : ℚ)),
   ("Add to Cart", .num (r.add_to_cart : ℚ)),
   ("Initiate Checkout", .num (r.initiate_checkout : ℚ)),
   ("ROAS", .num (round2 r.roas)),
   ("CPC", .rupee (round2 r.cpc)),
   ("CTR", .pct (round2 (r.ctr * 100))),
   ("CPM", .rupee (round2 r.cpm)),
   ("LC TO LPV", .pct (round2 r.lc_to_lpv)),
   ("LPV TO ATC", .pct (round2 r.lpv_to_atc)),
   ("ATC TO CI", .pct (round2 r.atc_to_ci)),
   ("CI TO ORDERED", .pct (round2 r.ci_to_ordered)),
   ("CVR", .pct (round2 r.cvr))]

/-- A DataFrame: a column list and rows of named cells. -/
structure Table where
  header : List String
  rows : List (List (String × Cell))
deriving DecidableEq, Repr

/-- `MetricsProcessor.create_ad_level_report`: empty input returns an
empty frame that still carries the full fixed header (lines 473-479);
otherwise group, add ratios, sort by spend descending (stable merge sort;
the pandas tie order is abstract) and format. -/
def create_ad_level_report (ad_data : List Item) (today : String) : Table :=
  if ad_data.isEmpty then
    { header := adLevelHeader, rows := [] }
  else
    let agg := groupByAd (ad_data.map toAdRec)
    let sorted := agg.mergeSort (fun a b => decide (b.spend ≤ a.spend))
    { header := adLevelHeader
      rows := sorted.map (fun r => formatAdRow today (adRatios r)) }

/-! ## GoogleSheetsManager.update_ad_level -/

/-- Lines 217-221 of `update_ad_level`: if the frame has no `Date`
column, insert one at position 0 filled with `date_label`; otherwise
overwrite the existing `Date` column with `date_label`. -/
def setDateColumn (df : Table) (date_label : String) : Table :=
  if "Date" ∈ df.header then
    { df with rows := df.rows.map (fun row =>
        row.map (fun p => if p.1 = "Date" then (p.1, Cell.text date_label) else p)) }
  else
    { header := "Date" :: df.header
      rows := df.rows.map (fun row => ("Date", Cell.text date_label) :: row) }

/-- `GoogleSheetsManager.update_ad_level` (lines 208-246) acting on the
worksheet contents `existing` (a list of cell rows): ensure the `Date`
column, then — the dtype conversion loop of lines 224-229 is the identity
here — write header plus data when the sheet is empty, else append the
data rows at the bottom.  Nothing is ever deleted or overwritten. -/
def update_ad_level (existing : List (List Cell)) (df : Table)
    (date_label : String) : List (List Cell) :=
  let df := setDateColumn df date_label
  if existing.isEmpty then
    (df.header.map Cell.text) :: df.rows.map (fun row => row.map Prod.snd)
  else
    existing ++ df.rows.map (fun row => row.map Prod.snd)

/-! ## CatchupManager

Timestamps are integers counting seconds; `ch` stands for the
hour-aligned `current_hour` the code computes from the clock, and the
`CATCHUP_HOURS` environment value is passed in as the string `env`. -/

/-- Python `str.strip()` (default whitespace stripping). -/
def pyStrip (s : String) : String :=
  ⟨((s.data.dropWhile Char.isWhitespace).reverse.dropWhile
      Char.isWhitespace).reverse⟩

/-- Python `str.isdigit()`, restricted to the ASCII digits the
configuration surface uses. -/
def pyIsDigit (s : String) : Bool :=
  s ≠ "" && s.data.all Char.isDigit

/-- `int(...)` on a string of ASCII digits. -/
def parseDigits (s : String) : ℕ :=
  s.data.foldl (fun n c => 10 * n + (c.toNat - 48)) 0

/-- Lines 269-273 / 299-302: the `n` buckets preceding the current hour
(`range(n, 0, -1)`) followed by the current hour, oldest first. -/
def catchupList (ch : ℤ) (n : ℕ) : List ℤ :=
  ((List.range n).map (fun i : ℕ => ch - 3600 * ((n : ℤ) - (i : ℤ)))) ++ [ch]

/-- The auto-detect part of `CatchupManager.get_hours_to_process`
(lines 276-304): current hour only when auto-catchup is disabled or on
first run; otherwise `hours_diff = int((ch - last) / 3600)` (float
division then truncation toward zero), no gap when `≤ 1`, and a cap of
`maxCatchup` hours otherwise. -/
def autoCatchup (enableAuto : Bool) (maxCatchup : ℕ) (last : Option ℤ)
    (ch : ℤ) : List ℤ :=
  if ¬ enableAuto then [ch]
  else
    match last with
    | none => [ch]
    | some lt =>
      let diff : ℤ := Int.tdiv (ch - lt) 3600
      if diff ≤ 1 then [ch]
      else
        let d : ℤ := if (maxCatchup : ℤ) < diff then (maxCatchup : ℤ) else diff
        catchupList ch d.toNat

/-- `CatchupManager.get_hours_to_process` (lines 254-304): the manual
`CATCHUP_HOURS` override applies only when its stripped value is a
non-empty digit string with a positive value; every other value falls
through to the auto-detect rules. -/
def get_hours_to_process (env : String) (enableAuto : Bool)
    (maxCatchup : ℕ) (last : Option ℤ) (ch : ℤ) : List ℤ :=
  let manual := pyStrip env
  if manual ≠ "" ∧ pyIsDigit manual ∧ 0 < parseDigits manual then
    catchupList ch (parseDigits manual)
  else
    autoCatchup enableAuto maxCatchup last ch

/-! ## MetaAPIClient._paginate

The network is modelled by an oracle: the list of responses the server
returns to the successive HTTP requests, consumed one per request. -/

/-- One HTTP response: a JSON page (`data` plus optional `paging.next`
cursor URL), or a `requests.exceptions.RequestException`.  The flag on
`err` records whether the failure was an authentication/authorization
rejection (e.g. an HTTP 401/403 raised by `raise_for_status`); the code
never inspects it. -/
inductive Resp (α : Type) where
  | ok (data : List α) (next : Option String)
  | err (isAuth : Bool)
deriving DecidableEq, Repr

/-- The `while attempt < MAX_RETRIES` loop of `_paginate`
(lines 314-336), one oracle response consumed per request.  `params` is
`some p` while the initial query parameters are attached and `none` once
a cursor has been followed (`params = {}`).  Returns the accumulated
records and the log of issued requests `(url, params)`. -/
def paginateAux {α π : Type} (maxRetries : ℕ) :
    List (Resp α) → String → Option π → ℕ → List α →
      List (String × Option π) → List α × List (String × Option π)
  | [], _, _, _, acc, log => (acc, log)
  | r :: rest, url, params, attempt, acc, log =>
    if attempt < maxRetries then
      match r with
      | .ok data next =>
        match next with
        | none => (acc ++ data, log ++ [(url, params)])
        | some u =>
          paginateAux maxRetries rest u none attempt (acc ++ data)
            (log ++ [(url, params)])
      | .err _ =>
        if attempt + 1 < maxRetries then
          paginateAux maxRetries rest url params (attempt + 1) acc
            (log ++ [(url, params)])
        else (acc, log ++ [(url, params)])
    else (acc, log)

/-- `MetaAPIClient._paginate(url, params)` against a response oracle. -/
def paginate {α π : Type} (maxRetries : ℕ) (resps : List (Resp α))
    (url : String) (params : π) : List α × List (String × Option π) :=
  paginateAux maxRetries resps url (some params) 0 [] []

/-! ## MetaAdsTracker.run and the entry point -/

/-- The per-bucket loop of `MetaAdsTracker.run` (lines 659-669):
`f h` is the outcome of `process_single_hour` for bucket `h` —
`some true` on success, `some false` when it returned `False`, `none`
when it raised (the `except` clause logs and continues).  Returns
`success_count`. -/
def runLoop (f : ℤ → Option Bool) : List ℤ → ℕ
  | [] => 0
  | h :: t => (match f h with | some true => 1 | _ => 0) + runLoop f t

/-- The value `MetaAdsTracker.run` returns: `success_count > 0`
(line 696). -/
def runOk (f : ℤ → Option Bool) (hours : List ℤ) : Bool :=
  decide (0 < runLoop f hours)

/-- The `__main__` block (lines 701-707): print one of two messages and
fall off the end of the script — there is no `sys.exit` call, so the
interpreter exit status is 0 on either branch.  Result: (exit status,
printed message). -/
def mainBlock (ok : Bool) : ℕ × String :=
  if ok then (0, "Script completed successfully")
  else (0, "Script finished with no data or errors")

/-! ## Sample inputs used by concrete counterexamples and witnesses -/

/-- A raw record with positive spend and purchase value but zero clicks,
impressions and link clicks. -/
def sampleSpendItem : Item :=
  { spend := some 10, action_values := [⟨purchaseTag, some 5⟩] }

/-- A raw record with landing-page views and add-to-carts but zero
clicks, impressions and link clicks. -/
def sampleFunnelItem : Item :=
  { actions := [⟨"landing_page_view", some 2⟩, ⟨"add_to_cart", some 1⟩] }

/-- An `action_values` list holding two purchase-tagged entries. -/
def sampleDoublePurchase : List ActionRec :=
  [⟨purchaseTag, some 5⟩, ⟨purchaseTag, some 7⟩]

/-- A raw record whose `action_values` carry two purchase-tagged
entries. -/
def sampleDoublePurchaseItem : Item :=
  { action_values := sampleDoublePurchase }

/-- A one-column, one-row frame used to exercise `update_ad_level`. -/
def sampleFrame : Table :=
  { header := ["X"], rows := [[("X", Cell.num 1)]] }

/-- The property claimed of ledger rows: no cell is a locale-formatted
numeric string. -/
def rowTypeClean (row : List (String × Cell)) : Prop :=
  ∀ p ∈ row, p.2.isLocaleFormatted = false

end MetaAds

namespace MetaAds

/-! ## Helper lemmas -/

lemma foldl_stepSums : ∀ (items : List Item) (s : Sums),
    items.foldl stepSums s =
      { spend := s.spend + sumSpend items
        impressions := s.impressions + sumImpressions items
        clicks := s.clicks + sumClicks items
        link_clicks := s.link_clicks + sumLinkClicks items
        landing_page_views := s.landing_page_views + sumLandingPageViews items
        add_to_cart := s.add_to_cart + sumAddToCart items
        initiate_checkout := s.initiate_checkout + sumInitiateCheckout items
        purchases := s.purchases + sumPurchases items
        purchases_value := s.purchases_value + sumPurchasesValue items }
  | [], s => by
    simp [sumSpend, sumImpressions, sumClicks, sumLinkClicks,
      sumLandingPageViews, sumAddToCart, sumInitiateCheckout, sumPurchases,
      sumPurchasesValue]
  | i :: t, s => by
    rw [List.foldl_cons, foldl_stepSums t]
    simp only [stepSums, sumSpend, sumImpressions, sumClicks, sumLinkClicks,
      sumLandingPageViews, sumAddToCart, sumInitiateCheckout, sumPurchases,
      sumPurchasesValue, List.map_cons, List.sum_cons, Sums.mk.injEq]
    refine ⟨?_, ?_, ?_, ?_, ?_, ?_, ?_, ?_, ?_⟩ <;> ring

lemma calcSums_eq (items : List Item) :
    calcSums items =
      { spend := sumSpend items
        impressions := sumImpressions items
        clicks := sumClicks items
        link_clicks := sumLinkClicks items
        landing_page_views := sumLandingPageViews items
        add_to_cart := sumAddToCart items
        initiate_checkout := sumInitiateCheckout items
        purchases := sumPurchases items
        purchases_value := sumPurchasesValue items } := by
  rw [calcSums, foldl_stepSums]
  simp

lemma catchupList_ne_nil (ch : ℤ) (n : ℕ) : catchupList ch n ≠ [] := by
  simp [catchupList]

lemma get_hours_to_process_empty_env (b : Bool) (mc : ℕ) (last : Option ℤ)
    (ch : ℤ) :
    get_hours_to_process "" b mc last ch = autoCatchup b mc last ch := by
  simp only [get_hours_to_process]
  rw [if_neg (by decide)]

lemma autoCatchup_ne_nil (b : Bool) (mc : ℕ) (last : Option ℤ) (ch : ℤ) :
    autoCatchup b mc last ch ≠ [] := by
  rcases last with _ | lt <;> simp only [autoCatchup] <;> split
  · simp
  · simp
  · simp
  · split
    · simp
    · exact catchupList_ne_nil _ _

lemma get_hours_to_process_ne_nil (env : String) (b : Bool) (mc : ℕ)
    (last : Option ℤ) (ch : ℤ) :
    get_hours_to_process env b mc last ch ≠ [] := by
  simp only [get_hours_to_process]
  split
  · exact catchupList_ne_nil _ _
  · exact autoCatchup_ne_nil _ _ _ _

lemma runLoop_pos_iff (f : ℤ → Option Bool) : ∀ hours : List ℤ,
    0 < runLoop f hours ↔ ∃ h ∈ hours, f h = some true
  | [] => by simp [runLoop]
  | h :: t => by
    rw [runLoop]
    rcases hfh : f h with _ | b
    · simpa [hfh] using runLoop_pos_iff f t
    · cases b
      · simpa [hfh] using runLoop_pos_iff f t
      · simp only [hfh]
        constructor
        · intro _
          exact ⟨h, by simp, hfh⟩
        · intro _
          omega

/-! ## Claim theorems -/

/-- C1 (counterexample): reconciling the same frame for the same date
label twice through `update_ad_level` is not idempotent — starting from
the empty worksheet, the second reconciliation appends the data row a
second time, so the ledger differs from the once-reconciled one. -/
theorem update_ad_level_not_idempotent :
    update_ad_level (update_ad_level [] sampleFrame "01/01/2025")
        sampleFrame "01/01/2025"
      ≠ update_ad_level [] sampleFrame "01/01/2025" := by
  decide

/-- C1 (amended): `update_ad_level` is append-only.  Reconciling the same
frame and date label a second time yields the once-reconciled ledger with
the date-labelled data rows of the frame appended once more; existing rows are
never removed or modified. -/
theorem update_ad_level_appends_again (existing : List (List Cell))
    (df : Table) (d : String) :
    update_ad_level (update_ad_level existing df d) df d
      = update_ad_level existing df d
          ++ (setDateColumn df d).rows.map (fun row => row.map Prod.snd) := by
  cases existing with
  | nil => simp [update_ad_level]
  | cons a t => simp [update_ad_level]

/-- C4 (counterexample): a record whose `action_values` list contains two
purchase-tagged entries (values 5 and 7) contributes only the first value
5 to `purchases_value`, not the claimed sum 12. -/
theorem extract_purchase_value_first_only :
    (calculate_metrics [sampleDoublePurchaseItem]).purchases_value = 5 ∧
      (5 : ℚ) ≠ 5 + 7 := by
  constructor
  · simp [calculate_metrics, calcSums, stepSums, sampleDoublePurchaseItem,
      sampleDoublePurchase, extract_purchase_value, safeFloat, purchaseTag]
  · norm_num

/-- C4 (amended): `extract_purchase_value` returns the value of the FIRST
purchase-tagged entry of `action_values` (safe-coerced), ignoring other
tags and any later purchase-tagged entries, and returns `0.0` when no
entry carries the purchase tag. -/
theorem extract_purchase_value_finds_first (avs : List ActionRec) :
    extract_purchase_value avs
        = ((avs.find? (fun av => av.action_type == purchaseTag)).map
            (fun av => safeFloat av.value)).getD 0 ∧
      ((∀ av ∈ avs, av.action_type ≠ purchaseTag) →
        extract_purchase_value avs = 0) := by
  constructor
  · induction avs with
    | nil => rfl
    | cons av rest ih =>
      by_cases h : av.action_type = purchaseTag
      · have hb : (av.action_type == purchaseTag) = true := beq_iff_eq.mpr h
        simp [extract_purchase_value, List.find?_cons, hb, h]
      · have hb : (av.action_type == purchaseTag) = false :=
          beq_eq_false_iff_ne.mpr h
        simp [extract_purchase_value, List.find?_cons, hb, h, ih]
  · intro hnone
    induction avs with
    | nil => rfl
    | cons av rest ih =>
      have h := hnone av (by simp)
      rw [extract_purchase_value, if_neg h]
      exact ih (fun x hx => hnone x (by simp [hx]))

/-- C4 (witness): applying the amended theorem to a list whose only entry
is link-click tagged discharges the no-purchase-tag hypothesis and yields
contribution `0`. -/
theorem extract_purchase_value_finds_first_witness :
    extract_purchase_value [⟨"link_click", some 3⟩] = 0 :=
  (extract_purchase_value_finds_first [⟨"link_click", some 3⟩]).2
    (by intro av hav; simp at hav; simp [hav, purchaseTag])

/-- C6 (confirmed): a fetch whose four responses chain three continuation
cursors and then omit `next` issues exactly four requests — the first
with the initial query parameters, each cursor request with no additional
parameters — and returns the concatenation of the records
of all four pages. -/
theorem paginate_three_cursors {α : Type} (d1 d2 d3 d4 : List α)
    (u0 u1 u2 u3 : String) (p : String) :
    paginate 3
        [Resp.ok d1 (some u1), Resp.ok d2 (some u2), Resp.ok d3 (some u3),
         Resp.ok d4 none] u0 p
      = (d1 ++ d2 ++ d3 ++ d4,
         [(u0, some p), (u1, none), (u2, none), (u3, none)]) := by
  simp [paginate, paginateAux]

/-- C10 (confirmed): building the ad-level report from an empty record
list returns an empty table that still carries the fixed 21-column
header, in order. -/
theorem ad_level_report_empty_header (d : String) :
    create_ad_level_report [] d
        = { header := adLevelHeader, rows := [] } ∧
      adLevelHeader
        = ["Date", "Ad ID", "Ad Name", "Spend", "Revenue", "Orders",
           "Impressions", "Clicks", "Link Clicks", "Landing Page Views",
           "Add to Cart", "Initiate Checkout", "ROAS", "CPC", "CTR", "CPM",
           "LC TO LPV", "LPV TO ATC", "ATC TO CI", "CI TO ORDERED", "CVR"] ∧
      adLevelHeader.length = 21 := by
  refine ⟨by simp [create_ad_level_report], rfl, rfl⟩

/-- C2 (counterexample): the claim forces `ROAS = 0` and all funnel
steps to `0` whenever the summed clicks, impressions and link clicks are
zero — but ROAS divides by spend and the middle funnel steps divide by
their own stage counters.  A record with `spend = 10` and purchase value
`5` (zero clicks/impressions/link clicks) yields `ROAS = 1/2 ≠ 0`, and a
record with 2 landing-page views and 1 add-to-cart yields
`LPV TO ATC = 50 ≠ 0`. -/
theorem ratio_zero_rule_gap :
    (sumClicks [sampleSpendItem] = 0 ∧ sumImpressions [sampleSpendItem] = 0 ∧
      sumLinkClicks [sampleSpendItem] = 0) ∧
    (calculate_metrics [sampleSpendItem]).roas = 1 / 2 ∧ (1 / 2 : ℚ) ≠ 0 ∧
    (sumClicks [sampleFunnelItem] = 0 ∧ sumImpressions [sampleFunnelItem] = 0 ∧
      sumLinkClicks [sampleFunnelItem] = 0) ∧
    (calculate_metrics [sampleFunnelItem]).lpv_to_atc = 50 ∧
    (50 : ℚ) ≠ 0 := by
  refine ⟨⟨?_, ?_, ?_⟩, ?_, by norm_num, ⟨?_, ?_, ?_⟩, ?_, by norm_num⟩
  · simp [sumClicks, sampleSpendItem, safeInt]
  · simp [sumImpressions, sampleSpendItem, safeInt]
  · simp [sumLinkClicks, sampleSpendItem, extract_actions]
  · simp [calculate_metrics, calcSums, stepSums, sampleSpendItem, safeFloat,
      safeInt, extract_purchase_value, extract_actions, purchaseTag]
    norm_num
  · simp [sumClicks, sampleFunnelItem, safeInt]
  · simp [sumImpressions, sampleFunnelItem, safeInt]
  · simp [sumLinkClicks, sampleFunnelItem, extract_actions, stepAction,
      safeInt, purchaseTag]
  · simp [calculate_metrics, calcSums, stepSums, sampleFunnelItem, safeFloat,
      safeInt, extract_actions, stepAction, extract_purchase_value,
      purchaseTag]
    norm_num

/-- C2 (amended): every derived ratio of `calculate_metrics` is a ratio
of the summed counters — equal to the specified quotient when its own
denominator is strictly positive and to 0 when it is zero (the model is
exact rational arithmetic, so no NaN/Inf/exception can arise); in
particular, when the summed clicks, impressions and link clicks are all
zero, CPC, CPM, CTR, the first funnel step and CVR are 0 (ROAS and the
remaining funnel steps are instead 0 exactly when their own denominators
— spend, landing-page views, add-to-carts, initiate-checkouts — are
zero).  The per-ad ratio columns of `create_ad_level_report` obey the
same quotient-or-zero rule, with its CTR column holding the plain
fraction that is scaled by 100 in the formatted percent cell. -/
theorem ratio_of_sums_rules (items : List Item) :
    ((calculate_metrics items).spend = sumSpend items ∧
     (calculate_metrics items).purchases_value = sumPurchasesValue items ∧
     (calculate_metrics items).purchases = sumPurchases items ∧
     (calculate_metrics items).impressions = sumImpressions items ∧
     (calculate_metrics items).link_clicks = sumLinkClicks items ∧
     (calculate_metrics items).landing_page_views
       = sumLandingPageViews items ∧
     (calculate_metrics items).add_to_cart = sumAddToCart items ∧
     (calculate_metrics items).initiate_checkout
       = sumInitiateCheckout items ∧
     (calculate_metrics items).roas
       = (if 0 < sumSpend items then
            sumPurchasesValue items / sumSpend items else 0) ∧
     (calculate_metrics items).cpc
       = (if 0 < sumClicks items then
            sumSpend items / sumClicks items else 0) ∧
     (calculate_metrics items).cpm
       = (if 0 < sumImpressions items then
            sumSpend items / sumImpressions items * 1000 else 0) ∧
     (calculate_metrics items).ctr
       = (if 0 < sumImpressions items then
            sumClicks items / sumImpressions items * 100 else 0) ∧
     (calculate_metrics items).lc_to_lpv
       = (if 0 < sumLinkClicks items then
            (sumLandingPageViews items : ℚ) / (sumLinkClicks items : ℚ) * 100
          else 0) ∧
     (calculate_metrics items).lpv_to_atc
       = (if 0 < sumLandingPageViews items then
            (sumAddToCart items : ℚ) / (sumLandingPageViews items : ℚ) * 100
          else 0) ∧
     (calculate_metrics items).atc_to_ci
       = (if 0 < sumAddToCart items then
            (sumInitiateCheckout items : ℚ) / (sumAddToCart items : ℚ) * 100
          else 0) ∧
     (calculate_metrics items).ci_to_ordered
       = (if 0 < sumInitiateCheckout items then
            (sumPurchases items : ℚ) / (sumInitiateCheckout items : ℚ) * 100
          else 0) ∧
     (calculate_metrics items).cvr
       = (if 0 < sumLinkClicks items then
            (sumPurchases items : ℚ) / (sumLinkClicks items : ℚ) * 100
          else 0)) ∧
    ((sumClicks items = 0 ∧ sumImpressions items = 0 ∧
        sumLinkClicks items = 0) →
      (calculate_metrics items).cpc = 0 ∧ (calculate_metrics items).cpm = 0 ∧
      (calculate_metrics items).ctr = 0 ∧
      (calculate_metrics items).lc_to_lpv = 0 ∧
      (calculate_metrics items).cvr = 0) ∧
    (∀ r : AdRec,
      (adRatios r).roas
          = (if 0 < r.spend then r.purchases_value / r.spend else 0) ∧
        (adRatios r).cpc
          = (if 0 < r.clicks then r.spend / (r.clicks : ℚ) else 0) ∧
        (adRatios r).cpm
          = (if 0 < r.impressions then
               r.spend / (r.impressions : ℚ) * 1000 else 0) ∧
        (adRatios r).ctr * 100
          = (if 0 < r.impressions then
               (r.clicks : ℚ) / (r.impressions : ℚ) * 100 else 0) ∧
        (adRatios r).lc_to_lpv
          = (if 0 < r.link_clicks then
               (r.landing_page_views : ℚ) / (r.link_clicks : ℚ) * 100
             else 0) ∧
        (adRatios r).lpv_to_atc
          = (if 0 < r.landing_page_views then
               (r.add_to_cart : ℚ) / (r.landing_page_views : ℚ) * 100
             else 0) ∧
        (adRatios r).atc_to_ci
          = (if 0 < r.add_to_cart then
               (r.initiate_checkout : ℚ) / (r.add_to_cart : ℚ) * 100 else 0) ∧
        (adRatios r).ci_to_ordered
          = (if 0 < r.initiate_checkout then
               (r.purchases : ℚ) / (r.initiate_checkout : ℚ) * 100 else 0) ∧
        (adRatios r).cvr
          = (if 0 < r.link_clicks then
               (r.purchases : ℚ) / (r.link_clicks : ℚ) * 100 else 0)) := by
  have h := calcSums_eq items
  refine ⟨?_, ?_, ?_⟩
  · simp [calculate_metrics, h]
  · rintro ⟨h1, h2, h3⟩
    simp [calculate_metrics, h, h1, h2, h3]
  · intro r
    refine ⟨rfl, rfl, rfl, ?_, rfl, rfl, rfl, rfl, rfl⟩
    by_cases hi : 0 < r.impressions
    · simp only [adRatios, if_pos hi]
      try ring
    · simp [adRatios, hi]

/-- C2 (witness): applying the amended theorem to the empty record list
discharges the zero-sums hypothesis and yields
CPC = CPM = CTR = first funnel step = CVR = 0. -/
theorem ratio_of_sums_rules_witness :
    (calculate_metrics []).cpc = 0 ∧ (calculate_metrics []).cpm = 0 ∧
    (calculate_metrics []).ctr = 0 ∧ (calculate_metrics []).lc_to_lpv = 0 ∧
    (calculate_metrics []).cvr = 0 :=
  (ratio_of_sums_rules []).2.1
    ⟨by simp [sumClicks], by simp [sumImpressions], by simp [sumLinkClicks]⟩

/-- C3 (confirmed): the gap planner is a pure function of its inputs
(modelled as such), and for every current hour bucket `ch`: a last
recorded bucket 3 hours back (no override, cap 24) plans exactly the 4
buckets `ch-3h, ch-2h, ch-1h, ch` oldest first; no prior bucket plans
exactly `[ch]`; a last recorded bucket 50 hours back plans exactly the
24 hours preceding `ch` plus `ch`, i.e. 25 buckets. -/
theorem gap_planner_plans (ch : ℤ) :
    get_hours_to_process "" true 24 (some (ch - 3 * 3600)) ch
        = [ch - 3 * 3600, ch - 2 * 3600, ch - 3600, ch] ∧
      get_hours_to_process "" true 24 none ch = [ch] ∧
      get_hours_to_process "" true 24 (some (ch - 50 * 3600)) ch
        = (List.range 25).map
            (fun i : ℕ => ch - 3600 * ((24 : ℤ) - (i : ℤ))) ∧
      ((List.range 25).map
          (fun i : ℕ => ch - 3600 * ((24 : ℤ) - (i : ℤ)))).length = 25 := by
  refine ⟨?_, ?_, ?_, by rw [List.length_map, List.length_range]⟩
  · rw [get_hours_to_process_empty_env]
    have h1 : ch - (ch - 3 * 3600) = 10800 := by ring
    have h2 : Int.tdiv 10800 3600 = 3 := by decide
    simp [autoCatchup, h1, h2, catchupList, List.range_succ]
  · rw [get_hours_to_process_empty_env]
    simp [autoCatchup]
  · rw [get_hours_to_process_empty_env]
    have h1 : ch - (ch - 50 * 3600) = 180000 := by ring
    have h2 : Int.tdiv 180000 3600 = 50 := by decide
    simp only [autoCatchup, h1, h2]
    norm_num
    rw [List.range_succ]
    simp [catchupList]

/-- C5 (counterexample): an authentication rejection is NOT fatal and
does not abort the run.  Three consecutive auth-rejected responses make
`_paginate` issue 3 requests (so the rejection IS retried, twice), after
which it returns an empty record list instead of raising; and a bucket
whose processing failed does not stop the run loop — the subsequent
bucket is still processed and counted. -/
theorem auth_rejection_retried_run_continues :
    (paginate (α := ℕ) 3 [Resp.err true, Resp.err true, Resp.err true]
        "u" "p").2.length = 3 ∧
      runLoop (fun h => if h = 0 then some false else some true) [0, 1]
        = 1 := by
  decide

/-- C5 (amended): the fetch layer does not distinguish auth rejections
from transient errors: any run of request errors — auth or not — is
retried up to `MAX_RETRIES = 3` attempts against the same URL with the
same parameters, after which `_paginate` returns the records gathered so
far (degrading the bucket to partial data); and the per-bucket run loop
is compositional, so a failure in an earlier bucket never prevents
later buckets from being processed. -/
theorem auth_rejection_degrades_like_transient :
    (∀ (isAuth : Bool) (u p : String),
      paginate (α := ℕ) 3 [Resp.err isAuth, Resp.err isAuth, Resp.err isAuth]
          u p
        = ([], [(u, some p), (u, some p), (u, some p)])) ∧
    (∀ (f : ℤ → Option Bool) (xs ys : List ℤ),
      runLoop f (xs ++ ys) = runLoop f xs + runLoop f ys) := by
  constructor
  · intro isAuth u p
    simp [paginate, paginateAux]
  · intro f xs ys
    induction xs with
    | nil => simp [runLoop]
    | cons x t ih => simp [runLoop, ih, Nat.add_assoc]

/-- C7 (counterexample): the hourly report row for a record with spend 10
contains locale-formatted string cells (rupee-prefixed spend, percent
CTR, ...), so not every numeric value is stored as a genuine numeric
type; the same holds for an ad-level report row. -/
theorem ledger_rows_hold_formatted_strings :
    ¬ rowTypeClean
        (create_hourly_report (calculate_metrics [sampleSpendItem])
          "10/12/2025" "10/12/2025 09:00:00") ∧
      ¬ rowTypeClean
        (formatAdRow "10/12/2025" (adRatios (toAdRec sampleSpendItem))) := by
  unfold rowTypeClean
  constructor <;> decide

/-- C7 (amended): in every hourly report row, exactly the columns Spend,
Purchases Value, CPC, CTR, the four funnel steps, CVR and CPM are stored
as locale-formatted strings (currency or percent), while Purchases,
Impressions, Link Clicks, Landing Page Views, Add to Cart, Initiate
Checkout and ROAS are genuine numbers; in every ad-level report row,
Spend, Revenue, CPC, CTR, CPM, the four funnel steps and CVR are
formatted strings while Orders, Impressions, Clicks, Link Clicks,
Landing Page Views, Add to Cart, Initiate Checkout and ROAS are genuine
numbers. -/
theorem ledger_row_cell_types (m : Metrics) (d t today : String)
    (r : AdFull) :
    ((create_hourly_report m d t).filter
          (fun p => p.2.isLocaleFormatted)).map Prod.fst
        = ["Spend", "Purchases Value", "CPC", "CTR", "LC TO LPV",
           "LPV TO ATC", "ATC TO CI", "CI TO ORDERED", "CVR", "CPM"] ∧
      ((create_hourly_report m d t).filter (fun p => p.2.isNum)).map
          Prod.fst
        = ["Purchases", "Impressions", "Link Clicks", "Landing Page Views",
           "Add to Cart", "Initiate Checkout", "ROAS"] ∧
      ((formatAdRow today r).filter
          (fun p => p.2.isLocaleFormatted)).map Prod.fst
        = ["Spend", "Revenue", "CPC", "CTR", "CPM", "LC TO LPV",
           "LPV TO ATC", "ATC TO CI", "CI TO ORDERED", "CVR"] ∧
      ((formatAdRow today r).filter (fun p => p.2.isNum)).map Prod.fst
        = ["Orders", "Impressions", "Clicks", "Link Clicks",
           "Landing Page Views", "Add to Cart", "Initiate Checkout",
           "ROAS"] := by
  refine ⟨rfl, rfl, rfl, rfl⟩

/-- C8 (counterexample): with a single bucket whose processing returned
`False` (zero buckets reconciled), `run` returns `False`, yet the
`__main__` block only prints a warning — the process exit status is 0,
not the non-zero status the claim requires. -/
theorem zero_buckets_still_exit_zero :
    runLoop (fun _ => some false) [0] = 0 ∧
      mainBlock (runOk (fun _ => some false) [0])
        = (0, "Script finished with no data or errors") := by
  decide

/-- C8 (amended): the process exit status is 0 on every outcome — the
entry point never calls `sys.exit`, so success and total failure differ
only in the printed message; the boolean result of `run` does faithfully
report whether at least one bucket succeeded, but it is not propagated
to the exit status. -/
theorem exit_status_always_zero :
    (∀ ok : Bool, (mainBlock ok).1 = 0) ∧
    (∀ (f : ℤ → Option Bool) (hours : List ℤ),
      runOk f hours = true ↔ ∃ h ∈ hours, f h = some true) := by
  constructor
  · intro ok
    cases ok <;> rfl
  · intro f hours
    rw [runOk, decide_eq_true_iff]
    exact runLoop_pos_iff f hours

/-- C8 (witness): applying the amended theorem at concrete outcomes —
the exit status for a failed run is 0, and `run` reports success for one
successful bucket. -/
theorem exit_status_always_zero_witness :
    (mainBlock false).1 = 0 ∧
      runOk (fun _ => some true) [5] = true :=
  ⟨exit_status_always_zero.1 false,
   (exit_status_always_zero.2 (fun _ => some true) [5]).mpr
     ⟨5, by simp, rfl⟩⟩

/-- C9 (confirmed): the manual catchup override is honored only when the
stripped `CATCHUP_HOURS` value is a non-empty digit string denoting a
strictly positive integer.  The values `"0"`, `"-3"` and `"abc"` are
silently ignored — planning falls through to exactly the auto-detect
result (the same plan as with an empty override) — and no input ever
yields an error or an empty plan. -/
theorem manual_override_needs_positive_digits :
    (∀ (b : Bool) (mc : ℕ) (last : Option ℤ) (ch : ℤ),
      get_hours_to_process "0" b mc last ch
          = get_hours_to_process "" b mc last ch ∧
        get_hours_to_process "-3" b mc last ch
          = get_hours_to_process "" b mc last ch ∧
        get_hours_to_process "abc" b mc last ch
          = get_hours_to_process "" b mc last ch) ∧
    (∀ (env : String) (b : Bool) (mc : ℕ) (last : Option ℤ) (ch : ℤ),
      get_hours_to_process env b mc last ch ≠ []) := by
  constructor
  · intro b mc last ch
    refine ⟨?_, ?_, ?_⟩ <;>
      · simp only [get_hours_to_process]
        rw [if_neg (by decide), if_neg (by decide)]
  · intro env b mc last ch
    exact get_hours_to_process_ne_nil env b mc last ch

/-- C9 (witness): applying the theorem at concrete inputs — the override
`"0"` produces the same plan as no override (here: just the current
hour), and the plan for `"abc"` is non-empty. -/
theorem manual_override_needs_positive_digits_witness :
    get_hours_to_process "0" true 24 none 0 = [0] ∧
      get_hours_to_process "abc" true 24 none 0 ≠ [] := by
  constructor
  · rw [(manual_override_needs_positive_digits.1 true 24 none 0).1]
    decide
  · exact manual_override_needs_positive_digits.2 "abc" true 24 none 0

end MetaAds
